import Mathlib

/-!
Shallow embedding of the swish API client (`src/client.rs`, `src/error.rs`):
the request/response orchestration and error-normalization layer.  HTTP
transport, TLS and the JSON text parser are external collaborators; the JSON
text parser is passed in as a function parameter wherever the source calls
`serde_json::from_str`.  Monetary amounts are `f64` in the source; no claim
depends on floating-point arithmetic, so they are modelled as an abstract
integral value.
-/

namespace Swish

/-- Model of a `serde_json::Value`: the JSON document tree. -/
inductive Json where
  | null : Json
  | bool : Bool → Json
  | num : Int → Json
  | str : String → Json
  | arr : List Json → Json
  | obj : List (String × Json) → Json

/-- Provider error codes, from `error.rs` (`enum ErrorCode`). -/
inductive ErrorCode where
  | FF08 | RP03 | BE18 | RP01 | PA02 | AM06 | AM02 | AM03 | RP02 | RP06
  | ACMT03 | ACMT01 | ACMT07 | PA01 | RF02
  deriving DecidableEq

/-- One normalized provider error, from `error.rs` (`struct RequestError`).
HTTP status codes are modelled as naturals. -/
structure RequestError where
  http_status : Nat
  code : Option ErrorCode
  message : String
  additional_information : Option String
  deriving DecidableEq

/-- The unifying error type, from `error.rs` (`enum SwishClientError`).
Variants wrapping foreign error types (`hyper::Error`, `uri::InvalidUri`,
`io::Error`, `serde_json::Error`) carry the foreign error's description
string. -/
inductive SwishClientError where
  | Swish : RequestError → SwishClientError
  | Parse : String → SwishClientError
  | Http : String → SwishClientError
  | Uri : String → SwishClientError
  | Io : String → SwishClientError
  | Json : String → SwishClientError
  | ErrorCollection : List SwishClientError → SwishClientError

/-- Response headers as a list of name/value pairs.  `hyper` header values
that are valid UTF-8 are modelled as `String`s. -/
abbrev Headers := List (String × String)

/-- Model of `get_header_as_string` (client.rs): looks a header up by name.
`hyper`'s `HeaderMap` is case-insensitive by normalizing every header name
to lowercase on entry, so the model stores lowercase names and looks the
lowercase name up directly. -/
def get_header_as_string (headers : Headers) (name : String) : Option String :=
  headers.lookup name

/-- Model of Rust `str::split(c)` on a list of characters: splits at every
occurrence of `c`, keeping empty segments, and yields `[[]]` on the empty
input. -/
def splitChar (c : Char) : List Char → List (List Char)
  | [] => [[]]
  | x :: xs =>
    if x = c then
      [] :: splitChar c xs
    else
      match splitChar c xs with
      | [] => [[x]]
      | y :: ys => (x :: y) :: ys

/-- Model of `SwishClient::get_payment_id_from_location` (client.rs lines
646-649): split the location on `/`, take the last segment. -/
def get_payment_id_from_location (location : String) : Option String :=
  ((splitChar '/' location.data).getLast?).map fun id => String.mk id

/-- Model of `hyper::StatusCode::is_success`: 2xx. -/
def is_success (status : Nat) : Bool :=
  200 ≤ status && status ≤ 299

/-- Model of serde deserialization of `ErrorCode` (a fieldless enum): the
JSON value must be the string form of one of the variants. -/
def deserializeErrorCode : Json → Option ErrorCode
  | .str "FF08" => some .FF08
  | .str "RP03" => some .RP03
  | .str "BE18" => some .BE18
  | .str "RP01" => some ErrorCode.RP01
  | .str "PA02" => some .PA02
  | .str "AM06" => some .AM06
  | .str "AM02" => some .AM02
  | .str "AM03" => some .AM03
  | .str "RP02" => some .RP02
  | .str "RP06" => some .RP06
  | .str "ACMT03" => some .ACMT03
  | .str "ACMT01" => some .ACMT01
  | .str "ACMT07" => some .ACMT07
  | .str "PA01" => some .PA01
  | .str "RF02" => some .RF02
  | _ => none

/-- Model of `serde_json::from_value::<RequestError>`: `http_status` is
`#[serde(skip_deserializing)]` so it takes the default status 200 OK;
`errorCode` and `additionalInformation` are optional (missing or `null`
gives `none`); `errorMessage` is a required string; unknown keys are
ignored; a wrongly-typed value fails the whole decode. -/
def deserializeRequestError (j : Json) : Option RequestError :=
  match j with
  | .obj fields =>
    let code? : Option (Option ErrorCode) :=
      match fields.lookup "errorCode" with
      | none => some none
      | some .null => some none
      | some v => (deserializeErrorCode v).map some
    let message? : Option String :=
      match fields.lookup "errorMessage" with
      | some (.str s) => some s
      | _ => none
    let additional? : Option (Option String) :=
      match fields.lookup "additionalInformation" with
      | none => some none
      | some .null => some none
      | some (.str s) => some (some s)
      | some _ => none
    match code?, message?, additional? with
    | some c, some m, some a =>
      some { http_status := 200, code := c, message := m, additional_information := a }
    | _, _, _ => none
  | _ => none

/-- Model of `json.as_array()`. -/
def jsonAsArray : Json → Option (List Json)
  | .arr xs => some xs
  | _ => none

/-- Model of the error-array decoding inside `perform_swish_api_request`
(client.rs lines 692-708): `json.as_array()` as a zero-or-one iterator,
flat-mapped over the elements; each element is decoded as a `RequestError`
(failures contribute nothing), the decoded error is restamped with the
actual HTTP status, and wrapped into `SwishClientError::Swish`. -/
def classify_errors (status : Nat) (json : Json) : List SwishClientError :=
  (jsonAsArray json).toList.flatMap fun e =>
    ((e.flatMap fun err => (deserializeRequestError err).toList).map
      fun request_error => { request_error with http_status := status }).map
      SwishClientError.Swish

/-- Model of the response classification in
`SwishClient::perform_swish_api_request` (client.rs lines 674-722), after
the body has been read: a 404 becomes a single `RequestError` whose message
is the raw body; any other non-2xx status parses the body as JSON (`parse`
stands for `serde_json::from_str::<serde_json::Value>`, returning the parse
failure's description on error) and either collects the array elements into
an `ErrorCollection` or, when the body is not valid JSON, produces a single
`RequestError` whose message is the parse failure description; a 2xx status
passes body and headers through. -/
def classify_response (parse : String → Except String Json) (status : Nat)
    (body : String) (headers : Headers) : Except SwishClientError (String × Headers) :=
  if status = 404 then
    .error (.Swish { http_status := 404, code := none,
                     additional_information := none, message := body })
  else if !is_success status then
    match parse body with
    | .ok json => .error (.ErrorCollection (classify_errors status json))
    | .error err =>
      .error (.Swish { additional_information := none, code := none,
                       http_status := status, message := err })
  else
    .ok (body, headers)

/-- Receipt for a created payment, from client.rs (`struct CreatedPayment`). -/
structure CreatedPayment where
  id : String
  location : String
  request_token : Option String
  deriving DecidableEq

/-- Receipt for a created refund, from client.rs (`struct CreatedRefund`). -/
structure CreatedRefund where
  id : String
  location : String
  deriving DecidableEq

/-- Model of serde serialization of `CreatedPayment` (derived, no renames or
skips: a `None` optional serializes as `null`). -/
def serializeCreatedPayment (p : CreatedPayment) : Json :=
  .obj [("id", .str p.id), ("location", .str p.location),
        ("request_token", match p.request_token with | none => .null | some t => .str t)]

/-- Model of `json!(payment)` for `payment : Option<CreatedPayment>`:
`None` serializes as JSON `null`. -/
def serializeOptionCreatedPayment : Option CreatedPayment → Json
  | none => .null
  | some p => serializeCreatedPayment p

/-- Model of `serde_json::from_value::<CreatedPayment>`: requires an object
with string `id` and `location`; `request_token` is optional (missing or
`null` gives `none`).  On `null` input the decode fails with serde's
invalid-type message. -/
def deserializeCreatedPayment : Json → Except String CreatedPayment
  | .null => .error "invalid type: null, expected struct CreatedPayment"
  | .obj fields =>
    match fields.lookup "id", fields.lookup "location" with
    | some (.str id), some (.str location) =>
      match fields.lookup "request_token" with
      | none => .ok { id := id, location := location, request_token := none }
      | some .null => .ok { id := id, location := location, request_token := none }
      | some (.str t) => .ok { id := id, location := location, request_token := some t }
      | some _ => .error "invalid type, expected a string request_token"
    | _, _ => .error "missing or invalid field"
  | _ => .error "invalid type, expected struct CreatedPayment"

/-- Model of serde serialization of `CreatedRefund`. -/
def serializeCreatedRefund (r : CreatedRefund) : Json :=
  .obj [("id", .str r.id), ("location", .str r.location)]

/-- Model of `json!(refund)` for `refund : Option<CreatedRefund>`. -/
def serializeOptionCreatedRefund : Option CreatedRefund → Json
  | none => .null
  | some r => serializeCreatedRefund r

/-- Model of `serde_json::from_value::<CreatedRefund>`. -/
def deserializeCreatedRefund : Json → Except String CreatedRefund
  | .null => .error "invalid type: null, expected struct CreatedRefund"
  | .obj fields =>
    match fields.lookup "id", fields.lookup "location" with
    | some (.str id), some (.str location) => .ok { id := id, location := location }
    | _, _ => .error "missing or invalid field"
  | _ => .error "invalid type, expected struct CreatedRefund"

/-- Model of the success continuation of `SwishClient::create_payment`
(client.rs lines 317-336): read the `location` and `paymentrequesttoken`
headers, derive the payment id from the location, assemble an
`Option<CreatedPayment>`, then round-trip it through
`serde_json::from_value(json!(payment))`, mapping a decode failure into the
`Json` error variant. -/
def create_payment_from_response (headers : Headers) : Except SwishClientError CreatedPayment :=
  let location := get_header_as_string headers "location"
  let request_token := get_header_as_string headers "paymentrequesttoken"
  let payment : Option CreatedPayment :=
    location.bind fun location =>
      (get_payment_id_from_location location).map fun payment_id =>
        { id := payment_id, request_token := request_token, location := location }
  (deserializeCreatedPayment (serializeOptionCreatedPayment payment)).mapError
    SwishClientError.Json

/-- Model of the success continuation of `SwishClient::create_refund`
(client.rs lines 452-466): as for payments but with no request token. -/
def create_refund_from_response (headers : Headers) : Except SwishClientError CreatedRefund :=
  let location := get_header_as_string headers "location"
  let refund : Option CreatedRefund :=
    location.bind fun location =>
      (get_payment_id_from_location location).map fun refund_id =>
        { id := refund_id, location := location }
  (deserializeCreatedRefund (serializeOptionCreatedRefund refund)).mapError
    SwishClientError.Json

/-- Monetary amounts are `f64` in the source; no claim depends on
floating-point arithmetic, so they are modelled as an abstract integral
value. -/
abbrev Amount := Int

/-- The currency enum from client.rs; SEK is the only variant. -/
inductive Currency where
  | SEK : Currency
  deriving DecidableEq

/-- Model of serde serialization of `Currency` (a fieldless enum variant
serializes as its name string). -/
def serializeCurrency : Currency → Json
  | .SEK => .str "SEK"

/-- Params used to create a new payment, from client.rs
(`struct PaymentParams`); borrowed string slices are modelled as owned
strings (no behavioural difference). -/
structure PaymentParams where
  payee_payment_reference : Option String
  payer_alias : Option String
  payee_alias : String
  amount : Amount
  currency : Currency
  message : Option String
  callback_url : String

/-- Params used to create a new refund, from client.rs
(`struct RefundParams`). -/
structure RefundParams where
  payer_payment_reference : Option String
  original_payment_reference : String
  payment_reference : Option String
  payer_alias : String
  payee_alias : String
  amount : Amount
  currency : Currency
  message : Option String
  callback_url : String

/-- A field marked `#[serde(skip_serializing_if = "Option::is_none")]`:
emitted only when present, never as `null`. -/
def optField (key : String) : Option String → List (String × Json)
  | none => []
  | some v => [(key, .str v)]

/-- Model of serde serialization of `PaymentParams` (derived, camelCase
renaming, unset optionals skipped), in struct declaration order. -/
def serializePaymentParams (p : PaymentParams) : Json :=
  .obj (optField "payeePaymentReference" p.payee_payment_reference ++
        optField "payerAlias" p.payer_alias ++
        [("payeeAlias", .str p.payee_alias),
         ("amount", .num p.amount),
         ("currency", serializeCurrency p.currency)] ++
        optField "message" p.message ++
        [("callbackUrl", .str p.callback_url)])

/-- Model of serde serialization of `RefundParams` (derived, camelCase
renaming, unset optionals skipped), in struct declaration order. -/
def serializeRefundParams (r : RefundParams) : Json :=
  .obj (optField "payerPaymentReference" r.payer_payment_reference ++
        [("originalPaymentReference", .str r.original_payment_reference)] ++
        optField "paymentReference" r.payment_reference ++
        [("payerAlias", .str r.payer_alias),
         ("payeeAlias", .str r.payee_alias),
         ("amount", .num r.amount),
         ("currency", serializeCurrency r.currency)] ++
        optField "message" r.message ++
        [("callbackUrl", .str r.callback_url)])

/-- Model of the parameter rewrite at the top of `SwishClient::create_payment`
(client.rs lines 309-312): `payee_alias` is overwritten with the client's
configured merchant number before the params are posted. -/
def create_payment_params (merchant_swish_number : String) (params : PaymentParams) :
    PaymentParams :=
  { params with payee_alias := merchant_swish_number }

/-- Model of the parameter rewrite at the top of `SwishClient::create_refund`
(client.rs lines 445-448): `payer_alias` is overwritten with the client's
configured merchant number before the params are posted. -/
def create_refund_params (merchant_swish_number : String) (params : RefundParams) :
    RefundParams :=
  { params with payer_alias := merchant_swish_number }

/-- Field lookup on a serialized JSON object (first occurrence of the key). -/
def objLookup (j : Json) (key : String) : Option Json :=
  match j with
  | .obj fields => fields.lookup key
  | _ => none

/-- Key list of a serialized JSON object. -/
def jsonKeys : Json → List String
  | .obj fields => fields.map Prod.fst
  | _ => []

/-- Value list of a serialized JSON object. -/
def jsonValues : Json → List Json
  | .obj fields => fields.map Prod.snd
  | _ => []

/-- Model of `serde_json::from_value` into a generic string-to-value map:
succeeds exactly on objects, yielding the object's entries. -/
def decodeToMap : Json → Option (List (String × Json))
  | .obj fields => some fields
  | _ => none

/-- The fixed base URL configured in `SwishClient::new` (client.rs line 242). -/
def swish_api_url : String := "https://mss.cpc.getswish.net/swish-cpcapi/api/v1/"

/-- Model of `SwishClient::get_uri` (client.rs lines 635-639): concatenate
the base URL with the relative path and parse the result as a URI; `parse`
stands for the external `str::parse::<hyper::Uri>`, returning the parse
failure's description on error, which `get_uri` maps into the `Uri` error
variant. -/
def get_uri (parse : String → Except String String) (swish_api_url path : String) :
    Except SwishClientError String :=
  match parse (swish_api_url ++ path) with
  | .ok uri => .ok uri
  | .error err => .error (.Uri err)

/-- Observable outcome of one stage of an operation: a value, an error value
returned to the caller, or a Rust panic. -/
inductive CallOutcome (α : Type) where
  | ok : α → CallOutcome α
  | failed : SwishClientError → CallOutcome α
  | panicked : CallOutcome α

/-- Model of the URI-construction stage of `SwishClient::post` (client.rs
lines 578-593, used by `create_payment` and `create_refund`): a `get_uri`
failure is placed into the returned future as an error value for the
caller. -/
def post_uri_stage (parse : String → Except String String) (swish_api_url path : String) :
    CallOutcome String :=
  match get_uri parse swish_api_url path with
  | .ok uri => .ok uri
  | .error e => .failed e

/-- Model of the URI-construction stage of `SwishClient::get` (client.rs
line 609, used by `get_payment` and `get_refund`): the source reads
`self.get_uri(path).unwrap()`, so a `get_uri` failure panics instead of
being returned. -/
def get_uri_stage (parse : String → Except String String) (swish_api_url path : String) :
    CallOutcome String :=
  match get_uri parse swish_api_url path with
  | .ok uri => .ok uri
  | .error _ => .panicked

/-- The relative path used by `SwishClient::get_payment` (client.rs line
388): `format!("paymentrequests/\x7b\x7d", payment_id)`. -/
def get_payment_path (payment_id : String) : String :=
  "paymentrequests/" ++ payment_id

/-- Concrete stand-in for `str::parse::<hyper::Uri>` used on concrete
inputs: rejects any candidate URI containing a space (as hyper does). -/
def space_rejecting_uri_parse (s : String) : Except String String :=
  if s.data.contains ' ' then .error "invalid uri character" else .ok s

/-- Model of the composition in `SwishClient::create_payment` of the
response classification with the success continuation
(`response.and_then(move |(_, headers)| ...)`, client.rs line 317): a
classifier error propagates unchanged, a classifier success hands the
headers to the receipt assembly. -/
def create_payment_pipeline (parse : String → Except String Json) (status : Nat)
    (body : String) (headers : Headers) : Except SwishClientError CreatedPayment :=
  match classify_response parse status body headers with
  | .ok (_, headers) => create_payment_from_response headers
  | .error e => .error e

/-- Model of the corresponding composition in `SwishClient::create_refund`
(client.rs line 452). -/
def create_refund_pipeline (parse : String → Except String Json) (status : Nat)
    (body : String) (headers : Headers) : Except SwishClientError CreatedRefund :=
  match classify_response parse status body headers with
  | .ok (_, headers) => create_refund_from_response headers
  | .error e => .error e

/-- Concrete JSON body of the error-array example: a well-formed error entry
followed by a malformed one. -/
def exampleErrorBody : String :=
  "[\x7b\"errorCode\":\"RP01\",\"errorMessage\":\"x\"\x7d, \x7b\"bogus\":true\x7d]"

/-- The JSON document tree of `exampleErrorBody`. -/
def exampleErrorJson : Json :=
  .arr [.obj [("errorCode", .str "RP01"), ("errorMessage", .str "x")],
        .obj [("bogus", .bool true)]]

/-- Concrete stand-in for `serde_json::from_str::<serde_json::Value>` on the
error-array example. -/
def exampleErrorParse : String → Except String Json := fun _ => .ok exampleErrorJson

/-- Concrete JSON body of a single-object error response. -/
def exampleObjectErrorBody : String :=
  "\x7b\"errorCode\":\"RP01\",\"errorMessage\":\"x\"\x7d"

/-- Concrete stand-in for `serde_json::from_str::<serde_json::Value>` on the
single-object error example. -/
def exampleObjectErrorParse : String → Except String Json :=
  fun _ => .ok (.obj [("errorCode", .str "RP01"), ("errorMessage", .str "x")])

/-- Concrete stand-in for a JSON text parser on a body that is not valid
JSON. -/
def exampleBadJsonParse : String → Except String Json :=
  fun _ => .error "expected value at line 1 column 1"

/-- Concrete stand-in for a JSON text parser on an empty creation-response
body (never consulted on the 2xx path). -/
def exampleSuccessParse : String → Except String Json :=
  fun _ => .error "EOF while parsing a value at line 1 column 0"

/-- Concrete payment params (the doc-example values from client.rs), with
`payer_alias` left unset. -/
def examplePaymentParams : PaymentParams :=
  { payee_payment_reference := some "0123456789", payer_alias := none,
    payee_alias := "1231181189", amount := 100, currency := .SEK,
    message := some "Kingston USB Flash Drive 8 GB",
    callback_url := "https://example.com/api/swishcb/paymentrequests" }

/-- Concrete refund params, with `payment_reference` and `message` left
unset. -/
def exampleRefundParams : RefundParams :=
  { payer_payment_reference := some "0123456789",
    original_payment_reference := "6D6CD7406ECE4542A80152D909EF9F6B",
    payment_reference := none, payer_alias := "1231181189",
    payee_alias := "46712345678", amount := 100, currency := .SEK,
    message := none, callback_url := "https://example.com/api/swishcb/refunds" }

end Swish

namespace Swish

theorem splitChar_ne_nil (c : Char) (l : List Char) : splitChar c l ≠ [] := by
  induction l with
  | nil => simp [splitChar]
  | cons x xs ih =>
    by_cases hx : x = c
    · simp [splitChar, hx]
    · simp only [splitChar, if_neg hx]
      cases h : splitChar c xs with
      | nil => simp
      | cons y ys => simp

theorem getLast?_cons_of_ne_nil {α : Type} (a : α) {l : List α} (h : l ≠ []) :
    (a :: l).getLast? = l.getLast? := by
  cases l with
  | nil => exact absurd rfl h
  | cons y ys => exact List.getLast?_cons_cons

theorem splitChar_of_not_mem {c : Char} {l : List Char} (h : c ∉ l) :
    splitChar c l = [l] := by
  induction l with
  | nil => rfl
  | cons x xs ih =>
    have hx : ¬ x = c := by
      intro hcontra
      exact h (hcontra ▸ List.mem_cons_self x xs)
    have hxs : c ∉ xs := fun hm => h (List.mem_cons_of_mem _ hm)
    simp [splitChar, hx, ih hxs]

theorem two_le_length_splitChar {c : Char} {l : List Char} (h : c ∈ l) :
    2 ≤ (splitChar c l).length := by
  induction l with
  | nil => cases h
  | cons x xs ih =>
    by_cases hx : x = c
    · have h1 : splitChar c xs ≠ [] := splitChar_ne_nil c xs
      have h2 : 1 ≤ (splitChar c xs).length := List.length_pos.mpr h1
      simp only [splitChar, if_pos hx, List.length_cons]
      omega
    · have hxs : c ∈ xs := by
        rcases List.mem_cons.mp h with h' | h'
        · exact absurd h'.symm hx
        · exact h'
      cases hsp : splitChar c xs with
      | nil => exact absurd hsp (splitChar_ne_nil c xs)
      | cons y ys =>
        have h2 := ih hxs
        rw [hsp] at h2
        simp only [splitChar, if_neg hx, hsp, List.length_cons] at *
        omega

theorem splitChar_getLast?_append {c : Char} (xs : List Char) {ys : List Char}
    (h : c ∉ ys) : (splitChar c (xs ++ c :: ys)).getLast? = some ys := by
  induction xs with
  | nil =>
    simp [splitChar, splitChar_of_not_mem h]
  | cons x xs ih =>
    by_cases hx : x = c
    · rw [List.cons_append]
      simp only [splitChar, if_pos hx]
      rw [getLast?_cons_of_ne_nil _ (splitChar_ne_nil _ _)]
      exact ih
    · rw [List.cons_append]
      simp only [splitChar, if_neg hx]
      have hmem : c ∈ xs ++ c :: ys := by simp
      cases hsp : splitChar c (xs ++ c :: ys) with
      | nil => exact absurd hsp (splitChar_ne_nil _ _)
      | cons y ys' =>
        cases ys' with
        | nil =>
          have h2 := two_le_length_splitChar hmem
          rw [hsp] at h2
          simp at h2
        | cons z zs =>
          rw [List.getLast?_cons_cons]
          have h3 := ih
          rw [hsp, List.getLast?_cons_cons] at h3
          exact h3

theorem data_append_sep (a b : String) :
    (a ++ "/" ++ b).data = a.data ++ '/' :: b.data := by
  simp [String.data_append]

theorem get_payment_id_last_segment (a b : String) (hb : '/' ∉ b.data) :
    get_payment_id_from_location (a ++ "/" ++ b) = some b := by
  unfold get_payment_id_from_location
  rw [data_append_sep, splitChar_getLast?_append a.data hb]
  rfl

theorem get_payment_id_no_sep (loc : String) (h : '/' ∉ loc.data) :
    get_payment_id_from_location loc = some loc := by
  unfold get_payment_id_from_location
  rw [splitChar_of_not_mem h]
  rfl

theorem get_payment_id_isSome (loc : String) :
    ∃ id, get_payment_id_from_location loc = some id := by
  unfold get_payment_id_from_location
  cases h : (splitChar '/' loc.data).getLast? with
  | none =>
    exact absurd (List.getLast?_eq_none_iff.mp h) (splitChar_ne_nil '/' loc.data)
  | some x => exact ⟨String.mk x, by simp [h]⟩

theorem get_payment_id_trailing_sep (s : String) :
    get_payment_id_from_location (s ++ "/") = some "" := by
  unfold get_payment_id_from_location
  have hd : (s ++ "/").data = s.data ++ '/' :: ([] : List Char) := by
    simp [String.data_append]
  rw [hd, splitChar_getLast?_append s.data (by simp)]
  rfl

theorem deserialize_serialize_CreatedPayment (p : CreatedPayment) :
    deserializeCreatedPayment (serializeCreatedPayment p) = .ok p := by
  obtain ⟨id, loc, tok⟩ := p
  cases tok <;> rfl

theorem deserialize_serialize_CreatedRefund (r : CreatedRefund) :
    deserializeCreatedRefund (serializeCreatedRefund r) = .ok r := by
  obtain ⟨id, loc⟩ := r
  rfl

theorem create_payment_from_response_eq (headers : Headers) (L id : String)
    (hloc : get_header_as_string headers "location" = some L)
    (hid : get_payment_id_from_location L = some id) :
    create_payment_from_response headers =
      .ok { id := id, location := L,
            request_token := get_header_as_string headers "paymentrequesttoken" } := by
  unfold create_payment_from_response
  rw [hloc]
  simp [hid, serializeOptionCreatedPayment, deserialize_serialize_CreatedPayment,
    Except.mapError]

theorem create_refund_from_response_eq (headers : Headers) (L id : String)
    (hloc : get_header_as_string headers "location" = some L)
    (hid : get_payment_id_from_location L = some id) :
    create_refund_from_response headers = .ok { id := id, location := L } := by
  unfold create_refund_from_response
  rw [hloc]
  simp [hid, serializeOptionCreatedRefund, deserialize_serialize_CreatedRefund,
    Except.mapError]

theorem flatMap_decode_eq_filterMap (status : Nat) (l : List Json) :
    ((l.flatMap fun err => (deserializeRequestError err).toList).map
      (fun request_error => { request_error with http_status := status })).map
      SwishClientError.Swish
    = l.filterMap fun err => (deserializeRequestError err).map
        fun re => SwishClientError.Swish { re with http_status := status } := by
  induction l with
  | nil => rfl
  | cons e es ih => cases hd : deserializeRequestError e <;> simp [hd, ih]

theorem classify_errors_arr (status : Nat) (elems : List Json) :
    classify_errors status (.arr elems) =
      elems.filterMap fun err => (deserializeRequestError err).map
        fun re => SwishClientError.Swish { re with http_status := status } := by
  rw [← flatMap_decode_eq_filterMap]
  simp [classify_errors, jsonAsArray]

theorem classify_response_2xx (parse : String → Except String Json) (status : Nat)
    (body : String) (headers : Headers) (hs : is_success status = true) :
    classify_response parse status body headers = .ok (body, headers) := by
  have h404 : status ≠ 404 := by
    intro hcontra
    rw [hcontra] at hs
    simp [is_success] at hs
  simp [classify_response, h404, hs]

theorem create_payment_pipeline_2xx (parse : String → Except String Json)
    (status : Nat) (body : String) (headers : Headers)
    (hs : is_success status = true) :
    create_payment_pipeline parse status body headers =
      create_payment_from_response headers := by
  unfold create_payment_pipeline
  rw [classify_response_2xx parse status body headers hs]

theorem create_refund_pipeline_2xx (parse : String → Except String Json)
    (status : Nat) (body : String) (headers : Headers)
    (hs : is_success status = true) :
    create_refund_pipeline parse status body headers =
      create_refund_from_response headers := by
  unfold create_refund_pipeline
  rw [classify_response_2xx parse status body headers hs]

/-- C1: for every caller-supplied `PaymentParams`, `create_payment` replaces
`payee_alias` with the client's configured merchant number before
serializing the request body, and for every caller-supplied `RefundParams`,
`create_refund` replaces `payer_alias` with the configured merchant number;
the serialized request carries the merchant number in that field, never the
caller-supplied value. -/
theorem claim_C1 (merchant_swish_number : String) (p : PaymentParams) (r : RefundParams) :
    objLookup (serializePaymentParams (create_payment_params merchant_swish_number p))
      "payeeAlias" = some (.str merchant_swish_number) ∧
    objLookup (serializeRefundParams (create_refund_params merchant_swish_number r))
      "payerAlias" = some (.str merchant_swish_number) := by
  obtain ⟨ppr, pa, pal, am, cur, msg, cb⟩ := p
  obtain ⟨rpp, ror, rpr, rpa, rpal, ram, rcur, rmsg, rcb⟩ := r
  constructor
  · cases ppr <;> cases pa <;> rfl
  · cases rpp <;> cases rpr <;> rfl

/-- C2: for every non-2xx, non-404 response whose body parses as a JSON
array, the classifier decodes each element independently as a
`RequestError`, silently drops elements that fail to decode, stamps each
decoded error with the actual HTTP status, and returns the error-collection
variant; when zero elements decode the result is still the error-collection
variant carrying the empty list (the `filterMap` below is `[]` then). -/
theorem claim_C2 (parse : String → Except String Json) (status : Nat)
    (body : String) (headers : Headers) (elems : List Json)
    (hs : is_success status = false) (h404 : status ≠ 404)
    (hp : parse body = .ok (.arr elems)) :
    classify_response parse status body headers =
      .error (.ErrorCollection (elems.filterMap fun err =>
        (deserializeRequestError err).map fun re =>
          SwishClientError.Swish { re with http_status := status })) := by
  simp [classify_response, h404, hs, hp, classify_errors_arr]

/-- Witness for C2: status 422 with body
`[{"errorCode":"RP01","errorMessage":"x"}, {"bogus":true}]` yields a
collection with exactly one error: status 422, code RP01, message "x". -/
theorem claim_C2_witness :
    classify_response exampleErrorParse 422 exampleErrorBody [] =
      .error (.ErrorCollection [.Swish ⟨422, some ErrorCode.RP01, "x", none⟩]) :=
  claim_C2 exampleErrorParse 422 exampleErrorBody []
    [.obj [("errorCode", .str "RP01"), ("errorMessage", .str "x")],
     .obj [("bogus", .bool true)]] (by decide) (by decide) rfl

/-- C3: for every response with status 404, regardless of body content, the
classifier produces a single `RequestError` with status 404, no code, no
additional information, and message equal to the raw body; the result is
the same for every JSON parser, showing the branch precedes any JSON
parsing. -/
theorem claim_C3 (parse : String → Except String Json) (body : String)
    (headers : Headers) :
    classify_response parse 404 body headers =
      .error (.Swish { http_status := 404, code := none, message := body,
                       additional_information := none }) := by
  simp [classify_response]

/-- C4 counterexample: for a non-2xx, non-404 response whose body parses as
a single JSON error object, the classifier does not produce the single-error
variant decoded from that object; it produces the error-collection variant
carrying an empty list. -/
theorem claim_C4_counterexample :
    classify_response exampleObjectErrorParse 422 exampleObjectErrorBody [] =
      .error (.ErrorCollection []) ∧
    classify_response exampleObjectErrorParse 422 exampleObjectErrorBody [] ≠
      .error (.Swish { http_status := 422, code := some ErrorCode.RP01, message := "x",
                       additional_information := none }) := by
  refine ⟨rfl, fun h => ?_⟩
  rw [show classify_response exampleObjectErrorParse 422 exampleObjectErrorBody [] =
      Except.error (SwishClientError.ErrorCollection []) from rfl] at h
  injection h with h2
  exact SwishClientError.noConfusion h2

/-- C4 (amended): for every response with a non-2xx, non-404 status whose
body parses as a single JSON object (not an array), the classifier returns
the error-collection variant carrying an empty list; the object is never
decoded as a single `RequestError`, so its contents are lost. -/
theorem claim_C4 (parse : String → Except String Json) (status : Nat)
    (body : String) (headers : Headers) (fields : List (String × Json))
    (hs : is_success status = false) (h404 : status ≠ 404)
    (hp : parse body = .ok (.obj fields)) :
    classify_response parse status body headers = .error (.ErrorCollection []) := by
  simp [classify_response, h404, hs, hp, classify_errors, jsonAsArray]

/-- Witness for C4 (amended): the single-object error body at status 422. -/
theorem claim_C4_witness :
    classify_response exampleObjectErrorParse 422 exampleObjectErrorBody [] =
      .error (.ErrorCollection []) :=
  claim_C4 exampleObjectErrorParse 422 exampleObjectErrorBody []
    [("errorCode", .str "RP01"), ("errorMessage", .str "x")]
    (by decide) (by decide) rfl

/-- C5 counterexample: a 2xx creation response with no location header makes
`create_payment` fail with the `Json` error variant carrying serde's
null-decode message, not with a parse error reading "could not find
resource location" (that string appears nowhere in the source). -/
theorem claim_C5_counterexample :
    create_payment_pipeline exampleSuccessParse 201 "" [] =
      .error (.Json "invalid type: null, expected struct CreatedPayment") ∧
    create_payment_pipeline exampleSuccessParse 201 "" [] ≠
      .error (.Parse "could not find resource location") := by
  refine ⟨rfl, fun h => ?_⟩
  rw [show create_payment_pipeline exampleSuccessParse 201 "" [] =
      Except.error (SwishClientError.Json
        "invalid type: null, expected struct CreatedPayment") from rfl] at h
  injection h with h2
  exact SwishClientError.noConfusion h2

/-- C5 (amended): for every `create_payment` call whose HTTP response is 2xx
but whose headers contain no location header, the operation fails — with a
JSON-decode error (the assembled `Option<CreatedPayment>` is `None`, whose
`json!` image `null` fails to deserialize) — rather than returning a
partially-populated `CreatedPayment`. -/
theorem claim_C5 (parse : String → Except String Json) (status : Nat)
    (body : String) (headers : Headers) (hs : is_success status = true)
    (hloc : get_header_as_string headers "location" = none) :
    create_payment_pipeline parse status body headers =
      .error (.Json "invalid type: null, expected struct CreatedPayment") := by
  rw [create_payment_pipeline_2xx parse status body headers hs]
  unfold create_payment_from_response
  rw [hloc]
  rfl

/-- Witness for C5 (amended): a 2xx (201) response with no headers at all. -/
theorem claim_C5_witness :
    create_payment_pipeline exampleSuccessParse 201 "" [] =
      .error (.Json "invalid type: null, expected struct CreatedPayment") :=
  claim_C5 exampleSuccessParse 201 "" [] (by decide) rfl

/-- C6: the extracted resource identifier is the final `/`-delimited segment
of the location value (a value with no separator is its own identifier);
for a 2xx creation response whose location header ends in `/ABC`-style
segment and which carries a `paymentrequesttoken` header, `create_payment`
yields that segment as id, the full header value as location, and the token;
absence of the token header is not an error. -/
theorem claim_C6 (parse : String → Except String Json) (status : Nat)
    (body a b tok : String) (hs : is_success status = true) (hb : '/' ∉ b.data) :
    get_payment_id_from_location (a ++ "/" ++ b) = some b ∧
    (∀ loc : String, '/' ∉ loc.data → get_payment_id_from_location loc = some loc) ∧
    create_payment_pipeline parse status body
        [("location", a ++ "/" ++ b), ("paymentrequesttoken", tok)] =
      .ok { id := b, location := a ++ "/" ++ b, request_token := some tok } ∧
    create_payment_pipeline parse status body [("location", a ++ "/" ++ b)] =
      .ok { id := b, location := a ++ "/" ++ b, request_token := none } := by
  refine ⟨get_payment_id_last_segment a b hb,
    fun loc h => get_payment_id_no_sep loc h, ?_, ?_⟩
  · rw [create_payment_pipeline_2xx _ _ _ _ hs]
    have hloc : get_header_as_string
        [("location", a ++ "/" ++ b), ("paymentrequesttoken", tok)] "location" =
        some (a ++ "/" ++ b) := rfl
    rw [create_payment_from_response_eq _ _ b hloc
      (get_payment_id_last_segment a b hb)]
    rfl
  · rw [create_payment_pipeline_2xx _ _ _ _ hs]
    have hloc : get_header_as_string [("location", a ++ "/" ++ b)] "location" =
        some (a ++ "/" ++ b) := rfl
    rw [create_payment_from_response_eq _ _ b hloc
      (get_payment_id_last_segment a b hb)]
    rfl

/-- Witness for C6: the spec's concrete example, with a 32-character token. -/
theorem claim_C6_witness :
    get_payment_id_from_location
      ("https://host/api/v1/paymentrequests" ++ "/" ++ "ABC123") = some "ABC123" ∧
    create_payment_pipeline exampleSuccessParse 201 ""
        [("location", "https://host/api/v1/paymentrequests" ++ "/" ++ "ABC123"),
         ("paymentrequesttoken", "ffeeddccbbaa99887766554433221100")] =
      .ok { id := "ABC123",
            location := "https://host/api/v1/paymentrequests" ++ "/" ++ "ABC123",
            request_token := some "ffeeddccbbaa99887766554433221100" } :=
  have h := claim_C6 exampleSuccessParse 201 ""
    "https://host/api/v1/paymentrequests" "ABC123"
    "ffeeddccbbaa99887766554433221100" (by decide) (by decide)
  ⟨h.1, h.2.2.1⟩

/-- C7: for every `PaymentParams` and `RefundParams`, serialization omits
each unset optional field entirely (no `null` is ever emitted), the key set
is exactly the present optionals plus the always-present required fields,
each emitted key holds the field's value, and decoding the emitted JSON
into a generic map recovers exactly the serialized object's entries. -/
theorem claim_C7 (p : PaymentParams) (r : RefundParams) :
    jsonKeys (serializePaymentParams p) =
      (if p.payee_payment_reference.isSome then ["payeePaymentReference"] else []) ++
      (if p.payer_alias.isSome then ["payerAlias"] else []) ++
      ["payeeAlias", "amount", "currency"] ++
      (if p.message.isSome then ["message"] else []) ++ ["callbackUrl"] ∧
    Json.null ∉ jsonValues (serializePaymentParams p) ∧
    objLookup (serializePaymentParams p) "payeePaymentReference"
      = p.payee_payment_reference.map Json.str ∧
    objLookup (serializePaymentParams p) "payerAlias" = p.payer_alias.map Json.str ∧
    objLookup (serializePaymentParams p) "payeeAlias" = some (.str p.payee_alias) ∧
    objLookup (serializePaymentParams p) "amount" = some (.num p.amount) ∧
    objLookup (serializePaymentParams p) "currency" = some (.str "SEK") ∧
    objLookup (serializePaymentParams p) "message" = p.message.map Json.str ∧
    objLookup (serializePaymentParams p) "callbackUrl" = some (.str p.callback_url) ∧
    (∃ entries, decodeToMap (serializePaymentParams p) = some entries ∧
      Json.obj entries = serializePaymentParams p) ∧
    jsonKeys (serializeRefundParams r) =
      (if r.payer_payment_reference.isSome then ["payerPaymentReference"] else []) ++
      ["originalPaymentReference"] ++
      (if r.payment_reference.isSome then ["paymentReference"] else []) ++
      ["payerAlias", "payeeAlias", "amount", "currency"] ++
      (if r.message.isSome then ["message"] else []) ++ ["callbackUrl"] ∧
    Json.null ∉ jsonValues (serializeRefundParams r) ∧
    objLookup (serializeRefundParams r) "payerPaymentReference"
      = r.payer_payment_reference.map Json.str ∧
    objLookup (serializeRefundParams r) "originalPaymentReference"
      = some (.str r.original_payment_reference) ∧
    objLookup (serializeRefundParams r) "paymentReference"
      = r.payment_reference.map Json.str ∧
    objLookup (serializeRefundParams r) "payerAlias" = some (.str r.payer_alias) ∧
    objLookup (serializeRefundParams r) "payeeAlias" = some (.str r.payee_alias) ∧
    objLookup (serializeRefundParams r) "amount" = some (.num r.amount) ∧
    objLookup (serializeRefundParams r) "currency" = some (.str "SEK") ∧
    objLookup (serializeRefundParams r) "message" = r.message.map Json.str ∧
    objLookup (serializeRefundParams r) "callbackUrl" = some (.str r.callback_url) ∧
    (∃ entries, decodeToMap (serializeRefundParams r) = some entries ∧
      Json.obj entries = serializeRefundParams r) := by
  obtain ⟨ppr, pa, pal, am, cur, msg, cb⟩ := p
  obtain ⟨rpp, ror, rpr, rpa, rpal, ram, rcur, rmsg, rcb⟩ := r
  cases cur
  cases rcur
  refine ⟨?_, ?_, ?_, ?_, ?_, ?_, ?_, ?_, ?_, ⟨_, rfl, rfl⟩,
    ?_, ?_, ?_, ?_, ?_, ?_, ?_, ?_, ?_, ?_, ?_, ⟨_, rfl, rfl⟩⟩
  · cases ppr <;> cases pa <;> cases msg <;> rfl
  · cases ppr <;> cases pa <;> cases msg <;>
      simp [jsonValues, serializePaymentParams, optField, serializeCurrency]
  · cases ppr <;> cases pa <;> cases msg <;> rfl
  · cases ppr <;> cases pa <;> cases msg <;> rfl
  · cases ppr <;> cases pa <;> cases msg <;> rfl
  · cases ppr <;> cases pa <;> cases msg <;> rfl
  · cases ppr <;> cases pa <;> cases msg <;> rfl
  · cases ppr <;> cases pa <;> cases msg <;> rfl
  · cases ppr <;> cases pa <;> cases msg <;> rfl
  · cases rpp <;> cases rpr <;> cases rmsg <;> rfl
  · cases rpp <;> cases rpr <;> cases rmsg <;>
      simp [jsonValues, serializeRefundParams, optField, serializeCurrency]
  · cases rpp <;> cases rpr <;> cases rmsg <;> rfl
  · cases rpp <;> cases rpr <;> cases rmsg <;> rfl
  · cases rpp <;> cases rpr <;> cases rmsg <;> rfl
  · cases rpp <;> cases rpr <;> cases rmsg <;> rfl
  · cases rpp <;> cases rpr <;> cases rmsg <;> rfl
  · cases rpp <;> cases rpr <;> cases rmsg <;> rfl
  · cases rpp <;> cases rpr <;> cases rmsg <;> rfl
  · cases rpp <;> cases rpr <;> cases rmsg <;> rfl
  · cases rpp <;> cases rpr <;> cases rmsg <;> rfl

/-- Witness for C7: concrete params with some optionals unset serialize to
exactly the expected key lists. -/
theorem claim_C7_witness :
    jsonKeys (serializePaymentParams examplePaymentParams) =
      ["payeePaymentReference", "payeeAlias", "amount", "currency", "message",
       "callbackUrl"] :=
  (claim_C7 examplePaymentParams exampleRefundParams).1

/-- C8: for every response with a non-2xx, non-404 status whose body is not
valid JSON, the classifier produces a single `RequestError` with the actual
response status, no code, no additional information, and message equal to
the JSON parse failure's description. -/
theorem claim_C8 (parse : String → Except String Json) (status : Nat)
    (body : String) (headers : Headers) (err : String)
    (hs : is_success status = false) (h404 : status ≠ 404)
    (hp : parse body = .error err) :
    classify_response parse status body headers =
      .error (.Swish { http_status := status, code := none, message := err,
                       additional_information := none }) := by
  simp [classify_response, h404, hs, hp]

/-- Witness for C8: a 500 response with an HTML body. -/
theorem claim_C8_witness :
    classify_response exampleBadJsonParse 500 "<html>Service Unavailable</html>" [] =
      .error (.Swish ⟨500, none, "expected value at line 1 column 1", none⟩) :=
  claim_C8 exampleBadJsonParse 500 "<html>Service Unavailable</html>" []
    "expected value at line 1 column 1" (by decide) (by decide) rfl

/-- C9 counterexample: for `get_payment` (which goes through `SwishClient::get`),
a path whose concatenation with the base URL fails URI parsing makes the
operation panic (`get_uri(path).unwrap()`) instead of returning the failure
to the caller as a typed invalid-URI error value. -/
theorem claim_C9_counterexample :
    space_rejecting_uri_parse (swish_api_url ++ get_payment_path "a b") =
      .error "invalid uri character" ∧
    get_uri_stage space_rejecting_uri_parse swish_api_url (get_payment_path "a b") =
      .panicked :=
  ⟨rfl, rfl⟩

/-- C9 (amended): when concatenating the fixed base URL with the relative
path does not parse as a valid URI, `create_payment` and `create_refund`
(through `post`) return the failure to the caller as the typed invalid-URI
error variant, but `get_payment` and `get_refund` (through `get`) unwrap
the parse result and panic rather than return it. -/
theorem claim_C9 (parse : String → Except String String) (path err : String)
    (hp : parse (swish_api_url ++ path) = .error err) :
    post_uri_stage parse swish_api_url path = .failed (.Uri err) ∧
    get_uri_stage parse swish_api_url path = .panicked := by
  constructor <;> simp [post_uri_stage, get_uri_stage, get_uri, hp]

/-- Witness for C9 (amended): a payment id containing a space. -/
theorem claim_C9_witness :
    post_uri_stage space_rejecting_uri_parse swish_api_url (get_payment_path "a b") =
      .failed (.Uri "invalid uri character") ∧
    get_uri_stage space_rejecting_uri_parse swish_api_url (get_payment_path "a b") =
      .panicked :=
  claim_C9 space_rejecting_uri_parse (get_payment_path "a b")
    "invalid uri character" rfl

/-- C10: `get_payment_id_from_location` always returns `some` identifier
(splitting on `/` always yields at least one segment); for a location value
ending in `/` the identifier is the empty string, so a 2xx creation
response with such a location header yields a `CreatedPayment` or
`CreatedRefund` whose id is `""` rather than an error. -/
theorem claim_C10 (parse : String → Except String Json) (status : Nat)
    (body loc s tok : String) (hs : is_success status = true) :
    (∃ id, get_payment_id_from_location loc = some id) ∧
    get_payment_id_from_location (s ++ "/") = some "" ∧
    create_payment_pipeline parse status body
        [("location", s ++ "/"), ("paymentrequesttoken", tok)] =
      .ok { id := "", location := s ++ "/", request_token := some tok } ∧
    create_refund_pipeline parse status body [("location", s ++ "/")] =
      .ok { id := "", location := s ++ "/" } := by
  refine ⟨get_payment_id_isSome loc, get_payment_id_trailing_sep s, ?_, ?_⟩
  · rw [create_payment_pipeline_2xx _ _ _ _ hs]
    rw [create_payment_from_response_eq
      [("location", s ++ "/"), ("paymentrequesttoken", tok)] (s ++ "/") "" rfl
      (get_payment_id_trailing_sep s)]
    rfl
  · rw [create_refund_pipeline_2xx _ _ _ _ hs]
    rw [create_refund_from_response_eq [("location", s ++ "/")] (s ++ "/") "" rfl
      (get_payment_id_trailing_sep s)]

/-- Witness for C10: a 201 response whose location header ends in `/`. -/
theorem claim_C10_witness :
    get_payment_id_from_location ("https://host/paymentrequests" ++ "/") = some "" ∧
    create_payment_pipeline exampleSuccessParse 201 ""
        [("location", "https://host/paymentrequests" ++ "/"),
         ("paymentrequesttoken", "tok")] =
      .ok { id := "", location := "https://host/paymentrequests" ++ "/",
            request_token := some "tok" } ∧
    create_refund_pipeline exampleSuccessParse 201 ""
        [("location", "https://host/paymentrequests" ++ "/")] =
      .ok { id := "", location := "https://host/paymentrequests" ++ "/" } :=
  have h := claim_C10 exampleSuccessParse 201 "" "x" "https://host/paymentrequests"
    "tok" (by decide)
  ⟨h.2.1, h.2.2.1, h.2.2.2⟩

end Swish
